import Mathlib

/-!
Verification of the slack-bot repository: a Slack standup/health-check bot.

Two programs live in the repository:

* `src/index.js` together with `src/coda-integration.js` (JavaScript): the
  button-based daily health-check bot that stores responses in a Coda table
  with an in-memory fallback `Map`.  These files are embedded directly from
  their source below (`Js*` definitions, `buttonClick`, `submitBlockerDetails`,
  `startupCheck`).

* `src/slack_healthcheck_bot.py` / `src/config.py` (Python): the standup bot
  with the free-text response parser, follow-up and escalation state machine,
  and processed-event de-duplication.  The Python sources are absent from the
  repository snapshot (only byte-mangled compiled artifacts remain), so those
  components are modelled from the specification; each such definition carries
  a doc comment beginning `Modelled from the spec:`.
-/

namespace SlackBot

/-! ## Character-list utilities used by the parser embedding -/

/-- Lower-case one character (ASCII letters only), as `str.lower()` behaves on
the ASCII inputs the parser inspects. -/
def lowerChar (c : Char) : Char :=
  if 'A' ≤ c && c ≤ 'Z' then Char.ofNat (c.toNat + 32) else c

/-- Lower-case a list of characters. -/
def lowerCL (l : List Char) : List Char := l.map lowerChar

/-- Whitespace test used by trimming (`str.strip()`). -/
def isWs (c : Char) : Bool := c = ' ' || c = '\t' || c = '\r'

/-- Strip leading and trailing whitespace from a character list. -/
def trimCL (l : List Char) : List Char :=
  ((l.dropWhile isWs).reverse.dropWhile isWs).reverse

/-- Does `pat` occur at the head of `l`? -/
def headMatch : List Char → List Char → Bool
  | [], _ => true
  | _ :: _, [] => false
  | a :: as, b :: bs => a = b && headMatch as bs

/-- Does `pat` occur as a contiguous run anywhere in `l`?  This embeds the
Python `pat in line` substring test. -/
def containsSub (pat : List Char) : List Char → Bool
  | [] => headMatch pat []
  | c :: rest => headMatch pat (c :: rest) || containsSub pat rest

/-- Split a character list on newline characters (`text.split`). -/
def splitOnNl : List Char → List (List Char)
  | [] => [[]]
  | c :: rest =>
    if c = '\n' then [] :: splitOnNl rest
    else
      match splitOnNl rest with
      | [] => [[c]]
      | l :: ls => (c :: l) :: ls

/-- Everything after the first colon of a line, or `[]` when the line has no
colon: the value part of a `Field: value` line. -/
def afterColon : List Char → List Char
  | [] => []
  | c :: rest => if c = ':' then rest else afterColon rest

/-! ## Response Parser (modelled from the spec, §4.1) -/

/-- The structured record the Response Parser produces. -/
structure ParsedResponse where
  today : String
  on_track : String
  blockers : String
deriving DecidableEq

/-- Modelled from the spec: the parser starts from the defaults
`{today: "", on_track: "unknown", blockers: ""}` and each unmatched field
degrades to this default. -/
def defaultParsed : ParsedResponse :=
  { today := "", on_track := "unknown", blockers := "" }

/-- Modelled from the spec: a line containing the cue "today" sets `today`
to the value part of the line when it is value-bearing, else the field keeps
its previous value. -/
def applyToday (line : List Char) (acc : ParsedResponse) : ParsedResponse :=
  if containsSub "today".data (lowerCL line) then
    let v := trimCL (afterColon line)
    if v = [] then acc else { acc with today := String.mk v }
  else acc

/-- Modelled from the spec: a line containing "track" is matched against the
vocabulary yes/no by case-insensitive substring match; unmatched leaves
`on_track` unchanged. -/
def applyTrack (line : List Char) (acc : ParsedResponse) : ParsedResponse :=
  let low := lowerCL line
  if containsSub "track".data low then
    if containsSub "yes".data low then { acc with on_track := "yes" }
    else if containsSub "no".data low then { acc with on_track := "no" }
    else acc
  else acc

/-- Modelled from the spec: a line containing "blocker" is matched against
the keywords yes/no/none (normalising case); otherwise the raw value part of
the line is kept verbatim as the blocker description. -/
def applyBlocker (line : List Char) (acc : ParsedResponse) : ParsedResponse :=
  let low := lowerCL line
  if containsSub "blocker".data low then
    let v := trimCL (afterColon line)
    let vl := lowerCL v
    if vl = "yes".data || vl = "no".data || vl = "none".data then
      { acc with blockers := String.mk vl }
    else { acc with blockers := String.mk v }
  else acc

/-- One line of the parser scan: each line is checked independently for the
three cues. -/
def parseLine (acc : ParsedResponse) (line : List Char) : ParsedResponse :=
  applyBlocker line (applyTrack line (applyToday line acc))

/-- The non-empty trimmed lines of the raw text. -/
def parseLines (text : String) : List (List Char) :=
  ((splitOnNl text.data).map trimCL).filter (fun l => l ≠ [])

/-- Modelled from the spec: `parse_standup_response` of
`slack_healthcheck_bot.py` (source file missing from the snapshot).  Splits
the raw text into non-empty lines and scans each line independently for the
"today" / "track" / "blocker" cues, degrading unmatched fields to defaults;
a total function, so the parser terminates and never raises. -/
def parse_standup_response (text : String) : ParsedResponse :=
  (parseLines text).foldl parseLine defaultParsed

/-- Modelled from the spec: the fixed no-blocker keyword set. -/
def noBlockerKeywords : List String := ["none", "no", "n/a", ""]

/-- Modelled from the spec: a blockers field counts as "no blocker present"
exactly when it matches the keyword set up to case. -/
def noBlocker (b : String) : Bool :=
  noBlockerKeywords.contains (String.mk (lowerCL b.data))

/-- Modelled from the spec: a follow-up is needed exactly when the parsed
response shows not-on-track or a blocker present. -/
def needsFollowup (p : ParsedResponse) : Bool :=
  p.on_track = "no" || !noBlocker p.blockers

/-! ## Association-list maps

The JavaScript `Map` and the Python `dict` used by the bots are embedded as
association lists with insert-or-replace update, so a key occurs at most once
when the map is built by `alSet`. -/

/-- Insert-or-replace update, the semantics of `Map.set` / `dict[k] = v`. -/
def alSet {α : Type} (m : List (String × α)) (k : String) (v : α) :
    List (String × α) :=
  match m with
  | [] => [(k, v)]
  | (k₀, v₀) :: rest =>
    if k₀ = k then (k, v) :: rest else (k₀, v₀) :: alSet rest k v

/-- Lookup, the semantics of `Map.get` / `dict.get(k)`. -/
def alGet {α : Type} (m : List (String × α)) (k : String) : Option α :=
  match m with
  | [] => none
  | (k₀, v₀) :: rest => if k₀ = k then some v₀ else alGet rest k

/-- Delete every binding of `k`, the semantics of `Map.delete` / `del d[k]`. -/
def alDel {α : Type} (m : List (String × α)) (k : String) :
    List (String × α) :=
  match m with
  | [] => []
  | (k₀, v₀) :: rest =>
    if k₀ = k then alDel rest k else (k₀, v₀) :: alDel rest k

theorem alGet_alSet_self {α : Type} (m : List (String × α)) (k : String)
    (v : α) : alGet (alSet m k v) k = some v := by
  induction m with
  | nil => simp [alSet, alGet]
  | cons hd tl ih =>
    obtain ⟨k₀, v₀⟩ := hd
    by_cases h : k₀ = k <;> simp [alSet, alGet, h, ih]

theorem alGet_alSet_ne {α : Type} (m : List (String × α)) (k k' : String)
    (v : α) (h : k ≠ k') : alGet (alSet m k v) k' = alGet m k' := by
  induction m with
  | nil => simp [alSet, alGet, h]
  | cons hd tl ih =>
    obtain ⟨k₀, v₀⟩ := hd
    by_cases h₀ : k₀ = k
    · subst h₀
      simp [alSet, alGet, h]
    · simp [alSet, alGet, h₀, ih]

theorem alGet_alDel_self {α : Type} (m : List (String × α)) (k : String) :
    alGet (alDel m k) k = none := by
  induction m with
  | nil => simp [alDel, alGet]
  | cons hd tl ih =>
    obtain ⟨k₀, v₀⟩ := hd
    by_cases h : k₀ = k <;> simp [alDel, alGet, h, ih]

theorem alGet_alSet_isSome {α : Type} (m : List (String × α))
    (k k' : String) (v : α) (h : (alGet m k').isSome) :
    (alGet (alSet m k v) k').isSome := by
  by_cases hk : k = k'
  · subst hk
    simp [alGet_alSet_self]
  · rwa [alGet_alSet_ne m k k' v hk]

theorem mem_alSet {α : Type} (m : List (String × α)) (k : String) (v : α)
    (p : String × α) (hp : p ∈ alSet m k v) : p ∈ m ∨ p.1 = k := by
  induction m with
  | nil =>
    simp only [alSet, List.mem_singleton] at hp
    subst hp
    exact Or.inr rfl
  | cons hd tl ih =>
    obtain ⟨k₀, v₀⟩ := hd
    simp only [alSet] at hp
    split at hp
    next h₀ =>
      rcases List.mem_cons.mp hp with h | h
      · subst h
        exact Or.inr rfl
      · exact Or.inl (List.mem_cons_of_mem _ h)
    next h₀ =>
      rcases List.mem_cons.mp hp with h | h
      · exact Or.inl (by simp [h])
      · rcases ih h with h₁ | h₁
        · exact Or.inl (List.mem_cons_of_mem _ h₁)
        · exact Or.inr h₁

/-- The keys of an association map are pairwise distinct: the form of the
"at most one record per key" invariant. -/
def NodupKeys {α : Type} (m : List (String × α)) : Prop :=
  m.Pairwise (fun p q => p.1 ≠ q.1)

theorem alSet_nodupKeys {α : Type} (m : List (String × α)) (k : String)
    (v : α) (h : NodupKeys m) : NodupKeys (alSet m k v) := by
  induction m with
  | nil => simp [alSet, NodupKeys]
  | cons hd tl ih =>
    obtain ⟨k₀, v₀⟩ := hd
    rcases List.pairwise_cons.mp h with ⟨hhd, htl⟩
    simp only [alSet, NodupKeys]
    split
    next h₀ =>
      subst h₀
      exact List.pairwise_cons.mpr ⟨fun q hq => hhd q hq, htl⟩
    next h₀ =>
      refine List.pairwise_cons.mpr ⟨?_, ih htl⟩
      intro q hq
      rcases mem_alSet tl k v q hq with h₁ | h₁
      · exact hhd q h₁
      · rw [h₁]
        exact h₀

theorem nodupKeys_count_le_one {α : Type} (m : List (String × α))
    (u : String) (h : NodupKeys m) :
    (m.filter (fun p => p.1 = u)).length ≤ 1 := by
  induction m with
  | nil => simp
  | cons hd tl ih =>
    rcases List.pairwise_cons.mp h with ⟨hhd, htl⟩
    by_cases hu : hd.1 = u
    · have hnil : tl.filter (fun p => p.1 = u) = [] := by
        rw [List.filter_eq_nil_iff]
        intro q hq
        simp only [decide_eq_true_eq]
        intro hqu
        exact hhd q hq (hu.trans hqu.symm)
      simp [List.filter_cons, hu, hnil]
    · simpa [List.filter_cons, hu] using ih htl

/-! ## The standup bot state machine (modelled from the spec, §3-§4)

The Python source `slack_healthcheck_bot.py` is missing from the snapshot, so
the Interaction State Tracker and Escalation Engine are modelled from the
specification. -/

/-- A message posted by the standup bot, with the reaction affordances
offered on it (the escalate / monitor reaction choices of a follow-up). -/
structure BotMessage where
  channel : String
  text : String
  affordances : List String
deriving DecidableEq

/-- Modelled from the spec: a FollowUpRequest created when a thread response
indicates not-on-track or a blocker. -/
structure FollowUpRequest where
  user : String
  threadTs : String
  on_track : String
  blockers : String
deriving DecidableEq

/-- Modelled from the spec: a HelpFollowUp created when a quick reaction of
needs_help is given; keyed by the follow-up message id. -/
structure HelpFollowUp where
  user : String
  standupTs : String
deriving DecidableEq

/-- Modelled from the spec: the Tracker state the claims touch — messages
posted, the idempotency key set for thread follow-ups, the pending follow-up
maps, and a log. -/
structure BotState where
  messages : List BotMessage
  followupsSent : List String
  pendingFollowups : List (String × FollowUpRequest)
  pendingHelp : List (String × HelpFollowUp)
  logs : List String
deriving DecidableEq

/-- A fresh Tracker at process start. -/
def emptyBot : BotState :=
  { messages := [], followupsSent := [], pendingFollowups := [],
    pendingHelp := [], logs := [] }

/-- The standup channel the bot posts to (`SLACK_CHANNEL_ID`). -/
def channelId : String := "C-standup"

/-- Modelled from the spec: the escalation channel, default "leads". -/
def escalationChannel : String := "leads"

/-- Modelled from the spec: the escalate-class reaction glyph. -/
def escalateGlyph : String := "sos"

/-- Modelled from the spec: the monitor-class reaction glyph. -/
def monitorGlyph : String := "clock4"

/-- Modelled from the spec: the needs_help quick-reaction glyph on the main
prompt. -/
def needsHelpGlyph : String := "rotating_light"

/-- Modelled from the spec: the idempotency key `followup_{user}_{threadId}`
of a thread-derived follow-up. -/
def followupKey (user threadTs : String) : String :=
  "followup_" ++ user ++ "_" ++ threadTs

/-- Modelled from the spec: `send_followup_message` — if the key was already
used, log the duplicate attempt and change nothing else (ignored, no error);
otherwise post the follow-up message with the escalate and monitor reaction
affordances, remember the key, and record the pending FollowUpRequest. -/
def send_followup_message (st : BotState) (user threadTs : String)
    (p : ParsedResponse) : BotState :=
  let key := followupKey user threadTs
  if key ∈ st.followupsSent then
    { st with logs := st.logs ++ ["Already sent followup to " ++ user] }
  else
    { st with
      messages := st.messages ++
        [⟨channelId,
          "<@" ++ user ++ ">, thanks for the detailed update! Since you are either not on track or facing a blocker, would you like help?",
          [escalateGlyph, monitorGlyph]⟩],
      followupsSent := st.followupsSent ++ [key],
      pendingFollowups :=
        alSet st.pendingFollowups key ⟨user, threadTs, p.on_track, p.blockers⟩ }

/-- Modelled from the spec: `handle_standup_response` — parse the thread
reply; when it shows not-on-track or a blocker, send the follow-up, else post
the on-track acknowledgement. -/
def handle_standup_response (st : BotState) (user threadTs text : String) :
    BotState :=
  let p := parse_standup_response text
  if needsFollowup p then send_followup_message st user threadTs p
  else
    { st with messages := st.messages ++
        [⟨channelId,
          "Great job <@" ++ user ++ ">! You are on track and have no blockers.",
          []⟩] }

/-- The message id Slack assigns to the next posted message, modelled as the
index of the message in the posting order. -/
def nextTs (st : BotState) : String := "msg-" ++ toString st.messages.length

/-- Modelled from the spec: `send_help_followup` — post the help follow-up
message carrying the escalate and monitor reaction affordances and record the
pending HelpFollowUp keyed by the follow-up message id. -/
def send_help_followup (st : BotState) (user standupTs : String) : BotState :=
  let fts := nextTs st
  { st with
    messages := st.messages ++
      [⟨channelId,
        "<@" ++ user ++ ">, I see you need help! Reply in this thread or react to this message.",
        [escalateGlyph, monitorGlyph]⟩],
    pendingHelp := alSet st.pendingHelp fts ⟨user, standupTs⟩ }

/-- Modelled from the spec: `handle_quick_reaction` — a reaction on the main
prompt posts the status acknowledgement; a needs_help reaction additionally
sends the help follow-up. -/
def handle_quick_reaction (st : BotState) (user standupTs reaction : String) :
    BotState :=
  if reaction = "white_check_mark" then
    { st with messages := st.messages ++
        [⟨channelId, "<@" ++ user ++ ">: All good!", []⟩] }
  else if reaction = "warning" then
    { st with messages := st.messages ++
        [⟨channelId, "<@" ++ user ++ ">: Minor issues noted", []⟩] }
  else if reaction = needsHelpGlyph then
    let st₁ :=
      { st with messages := st.messages ++
          [⟨channelId, "<@" ++ user ++ ">: Help needed!", []⟩] }
    send_help_followup st₁ user standupTs
  else st

/-- Modelled from the spec: `escalate_help_request` — post the escalation
notice to the leads channel and confirm to the user in the standup channel. -/
def escalate_help_request (st : BotState) (user threadTs : String) :
    BotState :=
  { st with messages := st.messages ++
      [⟨escalationChannel,
        "Help Request Escalated: <@" ++ user ++ "> needs immediate assistance. Thread: " ++ threadTs,
        []⟩,
       ⟨channelId,
        "<@" ++ user ++ ">, I have escalated this to the team leads!",
        []⟩] }

/-- Modelled from the spec: `handle_reaction` — a reaction on a follow-up
message is resolved through the reverse lookup by message id; escalate posts
to the leads channel, monitor acknowledges; either way the pending record is
cleared.  An unknown message id is logged and ignored. -/
def handle_reaction (st : BotState) (reaction msgTs : String) : BotState :=
  match alGet st.pendingHelp msgTs with
  | none =>
    { st with logs := st.logs ++ ["No user data found for message " ++ msgTs] }
  | some hf =>
    if reaction = escalateGlyph then
      let st₁ := escalate_help_request st hf.user hf.standupTs
      { st₁ with pendingHelp := alDel st₁.pendingHelp msgTs }
    else if reaction = monitorGlyph then
      { st with
        messages := st.messages ++
          [⟨channelId,
            "Got it <@" ++ hf.user ++ ">, we will keep an eye on this.",
            []⟩],
        pendingHelp := alDel st.pendingHelp msgTs }
    else st

/-- The number of messages a state has posted to the escalation channel. -/
def escCount (st : BotState) : Nat :=
  (st.messages.filter (fun m => m.channel = escalationChannel)).length

/-! ## Event Dispatcher de-duplication (modelled from the spec, §4.2, §7) -/

/-- Modelled from the spec: the inbound events the dispatcher routes. -/
inductive InboundEvent where
  | threadMessage (user threadTs text : String)
  | reactionOnFollowup (reaction msgTs : String)
  | quickReaction (user standupTs reaction : String)
deriving DecidableEq

/-- Dispatcher state: the Tracker plus the processed-event id set. -/
structure DispatchState where
  bot : BotState
  processedEvents : List String
deriving DecidableEq

/-- Modelled from the spec: `markEventProcessed` with bounded eviction — the
set keeps the most recent 500 ids, oldest discarded first. -/
def markEventProcessed (l : List String) (eventId : String) : List String :=
  let l' := l ++ [eventId]
  if l'.length > 500 then l'.drop (l'.length - 500) else l'

/-- Routing an already-de-duplicated event to the Tracker handlers. -/
def applyEvent (st : BotState) : InboundEvent → BotState
  | .threadMessage user threadTs text =>
    handle_standup_response st user threadTs text
  | .reactionOnFollowup reaction msgTs => handle_reaction st reaction msgTs
  | .quickReaction user standupTs reaction =>
    handle_quick_reaction st user standupTs reaction

/-- Modelled from the spec: the dispatcher drops an inbound delivery whose
platform event id is already in the de-duplication set; otherwise it marks
the id processed and routes the event. -/
def handleEvent (st : DispatchState) (eventId : String) (ev : InboundEvent) :
    DispatchState :=
  if eventId ∈ st.processedEvents then st
  else
    { bot := applyEvent st.bot ev,
      processedEvents := markEventProcessed st.processedEvents eventId }

/-! ## The JavaScript health-check bot (`src/index.js`, `src/coda-integration.js`) -/

/-- A chat message posted through the Slack Web API, as observed by users. -/
structure JsMessage where
  channel : String
  text : String
deriving DecidableEq

/-- A row appended to the Coda table by `coda-integration.js`.  The Response
cell is either the plain button value (`addResponse`) or the JSON-serialised
structured blocker record (`addBlockerDetails`); `JSON.stringify` is injective
on these records, so the cell is embedded structurally. -/
inductive CodaCell where
  | plain (s : String)
  | blockerInfo (blockerDescription krName urgency : String)
deriving DecidableEq

/-- One row of the Coda table: User ID, Response, Timestamp columns. -/
structure CodaRow where
  userId : String
  response : CodaCell
  timestamp : String
deriving DecidableEq

/-- A value of the in-memory fallback `responses` map of `index.js`. -/
structure JsStoredResponse where
  response : String
  timestamp : String
deriving DecidableEq

/-- Observable state of the JavaScript bot: the external Coda table (append
only), the in-memory fallback `responses` map, and the messages posted. -/
structure JsState where
  codaRows : List CodaRow
  responses : List (String × JsStoredResponse)
  messages : List JsMessage
deriving DecidableEq

/-- The empty starting state of the JavaScript bot process. -/
def jsEmpty : JsState := { codaRows := [], responses := [], messages := [] }

/-- The text of the blocked follow-up form message of `index.js` (top-level
`text` field of the block message). -/
def blockedFormText : String :=
  "Thanks for your response! You selected \"I\x27m blocked\". Let me help you get unblocked."

/-- The `app.action(/button_click_\d+/)` handler of `index.js`: acknowledge,
try the Coda write, fall back to the in-memory `responses` map when it fails,
then post a confirmation message to the channel.  `codaOk` abstracts whether
`coda.addResponse` succeeded (it returns `false` both when Coda is not
configured and when the HTTP call fails). -/
def buttonClick (st : JsState) (codaOk : Bool)
    (userId channel response timestamp : String) : JsState :=
  let st₁ :=
    if codaOk then
      { st with codaRows := st.codaRows ++ [⟨userId, .plain response, timestamp⟩] }
    else
      { st with responses := alSet st.responses userId ⟨response, timestamp⟩ }
  if response = "blocked" then
    { st₁ with messages := st₁.messages ++ [⟨channel, blockedFormText⟩] }
  else
    { st₁ with messages := st₁.messages ++
        [⟨channel, "Thanks for your response! You selected " ++ response ++ "."⟩] }

/-- The form values reaching the `submit_blocker_details` handler through
`body.state.values`; each field is absent (`none`) when the user left it
untouched. -/
structure BlockerForm where
  blockerDescription : Option String
  krName : Option String
  urgencySelected : Option String

/-- JavaScript `a || b` on an optional string: `undefined` and the empty
string are both falsy. -/
def jsOr (o : Option String) (d : String) : String :=
  match o with
  | none => d
  | some s => if s = "" then d else s

/-- The urgency values offered by the static_select of the blocked form in
`index.js` (option values `low`, `medium`, `high`, `critical`). -/
def urgencyOptions : List String := ["low", "medium", "high", "critical"]

/-- The failure confirmation of the `submit_blocker_details` handler. -/
def blockerFailText : String :=
  "❌ There was an issue saving your blocker details. Please try again or contact support."

/-- The top-level `text` of the success confirmation of the
`submit_blocker_details` handler. -/
def blockerSuccessText : String :=
  "✅ Blocker details submitted successfully! I\x27ve logged this in our tracking system."

/-- The `app.action('submit_blocker_details')` handler of `index.js`:
extract the three fields with `|| 'Not provided'` defaults, write the
structured record to Coda, and confirm success or failure to the user.  On a
failed Coda write nothing is stored anywhere else. -/
def submitBlockerDetails (st : JsState) (codaOk : Bool)
    (userId channel : String) (form : BlockerForm) (timestamp : String) :
    JsState :=
  let bd := jsOr form.blockerDescription "Not provided"
  let kr := jsOr form.krName "Not provided"
  let ur := jsOr form.urgencySelected "Not provided"
  if codaOk then
    { st with
      codaRows := st.codaRows ++ [⟨userId, .blockerInfo bd kr ur, timestamp⟩],
      messages := st.messages ++ [⟨channel, blockerSuccessText⟩] }
  else
    { st with messages := st.messages ++ [⟨channel, blockerFailText⟩] }

/-! ### Startup configuration check (`index.js` lines 7-10) -/

/-- The environment variables the top of `index.js` requires. -/
structure Env where
  slackBotToken : Option String
  slackSigningSecret : Option String
  slackChannelId : Option String

/-- Outcome of module start: an immediate `process.exit` or a running app. -/
inductive StartupResult where
  | exited (code : Nat) (msg : String)
  | running
deriving DecidableEq

/-- JavaScript truthiness of `process.env.X`: an unset variable is
`undefined` and the empty string is falsy. -/
def truthy (o : Option String) : Bool :=
  match o with
  | none => false
  | some s => !(s = "")

/-- The module-top environment check of `index.js`: if any of the three
required variables is falsy, log a descriptive error and `process.exit(1)`
before the app is started. -/
def startupCheck (e : Env) : StartupResult :=
  if !truthy e.slackBotToken || !truthy e.slackSigningSecret ||
      !truthy e.slackChannelId then
    .exited 1 "Missing required environment variables. Please check your .env file."
  else
    .running

/-! ## Parser lemmas -/

theorem applyToday_on_track (l : List Char) (a : ParsedResponse) :
    (applyToday l a).on_track = a.on_track := by
  simp only [applyToday]
  split_ifs <;> rfl

theorem applyToday_blockers (l : List Char) (a : ParsedResponse) :
    (applyToday l a).blockers = a.blockers := by
  simp only [applyToday]
  split_ifs <;> rfl

theorem applyTrack_today (l : List Char) (a : ParsedResponse) :
    (applyTrack l a).today = a.today := by
  simp only [applyTrack]
  split_ifs <;> rfl

theorem applyTrack_blockers (l : List Char) (a : ParsedResponse) :
    (applyTrack l a).blockers = a.blockers := by
  simp only [applyTrack]
  split_ifs <;> rfl

theorem applyBlocker_today (l : List Char) (a : ParsedResponse) :
    (applyBlocker l a).today = a.today := by
  simp only [applyBlocker]
  split_ifs <;> rfl

theorem applyBlocker_on_track (l : List Char) (a : ParsedResponse) :
    (applyBlocker l a).on_track = a.on_track := by
  simp only [applyBlocker]
  split_ifs <;> rfl

theorem applyTrack_on_track_cases (l : List Char) (a : ParsedResponse) :
    (applyTrack l a).on_track = "yes" ∨ (applyTrack l a).on_track = "no" ∨
      (applyTrack l a).on_track = a.on_track := by
  simp only [applyTrack]
  split_ifs <;> simp

theorem parseLine_on_track_cases (a : ParsedResponse) (l : List Char) :
    (parseLine a l).on_track = "yes" ∨ (parseLine a l).on_track = "no" ∨
      (parseLine a l).on_track = a.on_track := by
  unfold parseLine
  rw [applyBlocker_on_track]
  rcases applyTrack_on_track_cases l (applyToday l a) with h | h | h
  · exact Or.inl h
  · exact Or.inr (Or.inl h)
  · rw [h, applyToday_on_track]
    exact Or.inr (Or.inr rfl)

theorem foldl_parseLine_on_track (lines : List (List Char))
    (a : ParsedResponse)
    (h : a.on_track = "yes" ∨ a.on_track = "no" ∨ a.on_track = "unknown") :
    (lines.foldl parseLine a).on_track = "yes" ∨
      (lines.foldl parseLine a).on_track = "no" ∨
      (lines.foldl parseLine a).on_track = "unknown" := by
  induction lines generalizing a with
  | nil => exact h
  | cons hd tl ih =>
    apply ih
    rcases parseLine_on_track_cases a hd with h₁ | h₁ | h₁
    · exact Or.inl h₁
    · exact Or.inr (Or.inl h₁)
    · rw [h₁]
      exact h

theorem applyToday_noCue (l : List Char) (a : ParsedResponse)
    (h : containsSub "today".data (lowerCL l) = false) : applyToday l a = a := by
  simp [applyToday, h]

theorem applyTrack_noCue (l : List Char) (a : ParsedResponse)
    (h : containsSub "track".data (lowerCL l) = false) : applyTrack l a = a := by
  simp [applyTrack, h]

theorem applyBlocker_noCue (l : List Char) (a : ParsedResponse)
    (h : containsSub "blocker".data (lowerCL l) = false) :
    applyBlocker l a = a := by
  simp [applyBlocker, h]

theorem foldl_parseLine_today (lines : List (List Char)) (a : ParsedResponse)
    (h : ∀ l ∈ lines, containsSub "today".data (lowerCL l) = false) :
    (lines.foldl parseLine a).today = a.today := by
  induction lines generalizing a with
  | nil => rfl
  | cons hd tl ih =>
    rw [List.foldl_cons, ih _ (fun l hl => h l (List.mem_cons_of_mem _ hl))]
    unfold parseLine
    rw [applyBlocker_today, applyTrack_today,
      applyToday_noCue hd a (h hd (List.mem_cons_self hd tl))]

theorem foldl_parseLine_track (lines : List (List Char)) (a : ParsedResponse)
    (h : ∀ l ∈ lines, containsSub "track".data (lowerCL l) = false) :
    (lines.foldl parseLine a).on_track = a.on_track := by
  induction lines generalizing a with
  | nil => rfl
  | cons hd tl ih =>
    rw [List.foldl_cons, ih _ (fun l hl => h l (List.mem_cons_of_mem _ hl))]
    unfold parseLine
    rw [applyBlocker_on_track,
      applyTrack_noCue hd _ (h hd (List.mem_cons_self hd tl)),
      applyToday_on_track]

theorem foldl_parseLine_blockers (lines : List (List Char))
    (a : ParsedResponse)
    (h : ∀ l ∈ lines, containsSub "blocker".data (lowerCL l) = false) :
    (lines.foldl parseLine a).blockers = a.blockers := by
  induction lines generalizing a with
  | nil => rfl
  | cons hd tl ih =>
    rw [List.foldl_cons, ih _ (fun l hl => h l (List.mem_cons_of_mem _ hl))]
    unfold parseLine
    rw [applyBlocker_noCue hd _ (h hd (List.mem_cons_self hd tl)),
      applyTrack_blockers, applyToday_blockers]

/-- C4: for every free-text input the Response Parser terminates (it is a
total function) and returns a well-formed record: `on_track` is always one of
yes/no/unknown, the empty input yields the default record, and a field whose
cue appears on no line keeps its empty/"unknown" default. -/
theorem C4_parser_total_wellformed (text : String) :
    ((parse_standup_response text).on_track = "yes" ∨
      (parse_standup_response text).on_track = "no" ∨
      (parse_standup_response text).on_track = "unknown") ∧
    parse_standup_response "" =
      { today := "", on_track := "unknown", blockers := "" } ∧
    ((∀ l ∈ parseLines text, containsSub "today".data (lowerCL l) = false) →
      (parse_standup_response text).today = "") ∧
    ((∀ l ∈ parseLines text, containsSub "track".data (lowerCL l) = false) →
      (parse_standup_response text).on_track = "unknown") ∧
    ((∀ l ∈ parseLines text, containsSub "blocker".data (lowerCL l) = false) →
      (parse_standup_response text).blockers = "") := by
  refine ⟨?_, by decide, ?_, ?_, ?_⟩
  · exact foldl_parseLine_on_track _ _ (Or.inr (Or.inr rfl))
  · exact fun h => foldl_parseLine_today _ _ h
  · exact fun h => foldl_parseLine_track _ _ h
  · exact fun h => foldl_parseLine_blockers _ _ h

/-- Witness for C4 at the concrete cue-free input "hello world". -/
theorem C4_parser_total_wellformed_witness :
    (parse_standup_response "hello world").today = "" ∧
    (parse_standup_response "hello world").on_track = "unknown" ∧
    (parse_standup_response "hello world").blockers = "" :=
  ⟨(C4_parser_total_wellformed "hello world").2.2.1 (by decide),
   (C4_parser_total_wellformed "hello world").2.2.2.1 (by decide),
   (C4_parser_total_wellformed "hello world").2.2.2.2 (by decide)⟩

/-- C5: the Response Parser maps the given reply exactly to
{today: "Shipped login page", on_track: "no", blockers: "waiting on design
signoff"}, and handling that thread reply creates a FollowUpRequest. -/
theorem C5_scenario_blocked_reply :
    parse_standup_response
        "Today: Shipped login page\nOn Track: No\nBlockers: waiting on design signoff" =
      { today := "Shipped login page", on_track := "no",
        blockers := "waiting on design signoff" } ∧
    (handle_standup_response emptyBot "U1" "T1"
        "Today: Shipped login page\nOn Track: No\nBlockers: waiting on design signoff").pendingFollowups =
      [(followupKey "U1" "T1",
        { user := "U1", threadTs := "T1", on_track := "no",
          blockers := "waiting on design signoff" })] ∧
    followupKey "U1" "T1" ∈
      (handle_standup_response emptyBot "U1" "T1"
        "Today: Shipped login page\nOn Track: No\nBlockers: waiting on design signoff").followupsSent := by
  decide

/-- C1: a FollowUpRequest is created exactly when the parsed fields show
not-on-track or a blocker present; a blockers field matching the no-blocker
keyword set is normalized to the no-blocker sentinel "none", and the reply
"Today: refactor\nOn Track: Yes\nBlockers: None" parses to on_track "yes"
with blockers normalized and triggers no FollowUpRequest. -/
theorem C1_followup_exactly_when_at_risk (st : BotState) (u t txt : String)
    (h : followupKey u t ∉ st.followupsSent) :
    ((followupKey u t ∈ (handle_standup_response st u t txt).followupsSent) ↔
      ((parse_standup_response txt).on_track = "no" ∨
        ¬ noBlocker (parse_standup_response txt).blockers = true)) ∧
    parse_standup_response "Today: refactor\nOn Track: Yes\nBlockers: None" =
      { today := "refactor", on_track := "yes", blockers := "none" } ∧
    noBlocker "none" = true ∧
    (handle_standup_response emptyBot "U2" "T2"
        "Today: refactor\nOn Track: Yes\nBlockers: None").pendingFollowups = [] ∧
    (handle_standup_response emptyBot "U2" "T2"
        "Today: refactor\nOn Track: Yes\nBlockers: None").followupsSent = [] := by
  refine ⟨?_, by decide, by decide, by decide, by decide⟩
  by_cases hf : needsFollowup (parse_standup_response txt) = true
  · have hiff : (parse_standup_response txt).on_track = "no" ∨
        ¬ noBlocker (parse_standup_response txt).blockers = true := by
      simpa [needsFollowup] using hf
    simp only [handle_standup_response, hf, if_true, send_followup_message]
    rw [if_neg h]
    exact iff_of_true (by simp) hiff
  · have hrhs : ¬ ((parse_standup_response txt).on_track = "no" ∨
        ¬ noBlocker (parse_standup_response txt).blockers = true) := by
      intro hc
      apply hf
      rcases hc with hc | hc
      · simp [needsFollowup, hc]
      · have hb : noBlocker (parse_standup_response txt).blockers = false := by
          cases hb : noBlocker (parse_standup_response txt).blockers
          · rfl
          · exact absurd hb hc
        simp [needsFollowup, hb]
    rw [handle_standup_response, if_neg hf]
    exact iff_of_false (by simpa using h) hrhs

/-- Witness for C1 at a concrete blocked reply on a fresh Tracker. -/
theorem C1_followup_exactly_when_at_risk_witness :
    (followupKey "U1" "T1" ∈
      (handle_standup_response emptyBot "U1" "T1" "Blockers: stuck on infra").followupsSent) ↔
      ((parse_standup_response "Blockers: stuck on infra").on_track = "no" ∨
        ¬ noBlocker (parse_standup_response "Blockers: stuck on infra").blockers = true) :=
  (C1_followup_exactly_when_at_risk emptyBot "U1" "T1" "Blockers: stuck on infra"
    (by decide)).1

/-- C3: FollowUpRequest creation is idempotent per (user, thread): handling
the same not-on-track thread reply twice creates exactly one follow-up keyed
by `followup_{user}_{threadId}`; the duplicate attempt only appends a log
entry and is otherwise a no-op (no error is raised — the handler is a total
function). -/
theorem C3_followup_idempotent (st : BotState) (u t txt : String)
    (hn : needsFollowup (parse_standup_response txt) = true)
    (hk : followupKey u t ∉ st.followupsSent) :
    (handle_standup_response st u t txt).followupsSent.count (followupKey u t) = 1 ∧
    (handle_standup_response (handle_standup_response st u t txt) u t txt).followupsSent =
      (handle_standup_response st u t txt).followupsSent ∧
    (handle_standup_response (handle_standup_response st u t txt) u t txt).pendingFollowups =
      (handle_standup_response st u t txt).pendingFollowups ∧
    (handle_standup_response (handle_standup_response st u t txt) u t txt).messages =
      (handle_standup_response st u t txt).messages ∧
    (handle_standup_response (handle_standup_response st u t txt) u t txt).logs =
      (handle_standup_response st u t txt).logs ++
        ["Already sent followup to " ++ u] := by
  have h1 : handle_standup_response st u t txt =
      { st with
        messages := st.messages ++
          [⟨channelId,
            "<@" ++ u ++ ">, thanks for the detailed update! Since you are either not on track or facing a blocker, would you like help?",
            [escalateGlyph, monitorGlyph]⟩],
        followupsSent := st.followupsSent ++ [followupKey u t],
        pendingFollowups := alSet st.pendingFollowups (followupKey u t)
          ⟨u, t, (parse_standup_response txt).on_track,
            (parse_standup_response txt).blockers⟩ } := by
    simp only [handle_standup_response, hn, if_true]
    simp [send_followup_message, hk]
  have hmem : followupKey u t ∈ st.followupsSent ++ [followupKey u t] :=
    List.mem_append_right _ (List.mem_singleton.mpr rfl)
  have h2 : handle_standup_response (handle_standup_response st u t txt) u t txt =
      { handle_standup_response st u t txt with
        logs := (handle_standup_response st u t txt).logs ++
          ["Already sent followup to " ++ u] } := by
    rw [h1]
    simp only [handle_standup_response, hn, if_true]
    simp [send_followup_message, hmem, h1]
  refine ⟨?_, ?_, ?_, ?_, ?_⟩
  · rw [h1]
    simp [List.count_append, List.count_singleton_self,
      List.count_eq_zero_of_not_mem hk]
  · rw [h2]
  · rw [h2]
  · rw [h2]
  · rw [h2]

/-- Witness for C3 at a concrete not-on-track reply on a fresh Tracker. -/
theorem C3_followup_idempotent_witness :
    (handle_standup_response emptyBot "U1" "T1" "On Track: No").followupsSent.count
      (followupKey "U1" "T1") = 1 ∧
    (handle_standup_response (handle_standup_response emptyBot "U1" "T1" "On Track: No")
        "U1" "T1" "On Track: No").pendingFollowups =
      (handle_standup_response emptyBot "U1" "T1" "On Track: No").pendingFollowups :=
  ⟨(C3_followup_idempotent emptyBot "U1" "T1" "On Track: No" (by decide) (by decide)).1,
   (C3_followup_idempotent emptyBot "U1" "T1" "On Track: No" (by decide) (by decide)).2.2.1⟩

/-- C2: a needs_help quick reaction posts a follow-up message carrying both
the escalate and the monitor reaction affordances and records the pending
HelpFollowUp under the follow-up message id; a subsequent escalate reaction
on that message posts exactly one message to the escalation channel and
removes the pending record. -/
theorem C2_needs_help_roundtrip (st : BotState) (user standupTs : String) :
    (handle_quick_reaction st user standupTs needsHelpGlyph).messages.getLast? =
      some ⟨channelId,
        "<@" ++ user ++ ">, I see you need help! Reply in this thread or react to this message.",
        [escalateGlyph, monitorGlyph]⟩ ∧
    alGet (handle_quick_reaction st user standupTs needsHelpGlyph).pendingHelp
        ("msg-" ++ toString (st.messages.length + 1)) = some ⟨user, standupTs⟩ ∧
    escCount (handle_quick_reaction st user standupTs needsHelpGlyph) = escCount st ∧
    escCount (handle_reaction (handle_quick_reaction st user standupTs needsHelpGlyph)
        escalateGlyph ("msg-" ++ toString (st.messages.length + 1))) =
      escCount st + 1 ∧
    alGet (handle_reaction (handle_quick_reaction st user standupTs needsHelpGlyph)
        escalateGlyph ("msg-" ++ toString (st.messages.length + 1))).pendingHelp
        ("msg-" ++ toString (st.messages.length + 1)) = none := by
  have h1 : handle_quick_reaction st user standupTs needsHelpGlyph =
      { st with
        messages := (st.messages ++
          [⟨channelId, "<@" ++ user ++ ">: Help needed!", []⟩]) ++
          [⟨channelId,
            "<@" ++ user ++ ">, I see you need help! Reply in this thread or react to this message.",
            [escalateGlyph, monitorGlyph]⟩],
        pendingHelp := alSet st.pendingHelp
          ("msg-" ++ toString (st.messages.length + 1)) ⟨user, standupTs⟩ } := by
    rw [handle_quick_reaction, if_neg (by decide), if_neg (by decide), if_pos rfl]
    simp [send_help_followup, nextTs]
  have h2 : handle_reaction (handle_quick_reaction st user standupTs needsHelpGlyph)
      escalateGlyph ("msg-" ++ toString (st.messages.length + 1)) =
      { handle_quick_reaction st user standupTs needsHelpGlyph with
        messages := (handle_quick_reaction st user standupTs needsHelpGlyph).messages ++
          [⟨escalationChannel,
            "Help Request Escalated: <@" ++ user ++ "> needs immediate assistance. Thread: " ++ standupTs,
            []⟩,
           ⟨channelId, "<@" ++ user ++ ">, I have escalated this to the team leads!", []⟩],
        pendingHelp := alDel (alSet st.pendingHelp
          ("msg-" ++ toString (st.messages.length + 1)) ⟨user, standupTs⟩)
          ("msg-" ++ toString (st.messages.length + 1)) } := by
    simp only [handle_reaction, h1, alGet_alSet_self]
    simp [escalate_help_request, h1]
  refine ⟨?_, ?_, ?_, ?_, ?_⟩
  · rw [h1]
    simp [List.getLast?_concat]
  · rw [h1]
    simp [alGet_alSet_self]
  · rw [h1]
    simp [escCount, List.filter_append, channelId, escalationChannel]
  · rw [h2, h1]
    simp [escCount, List.filter_append, channelId, escalationChannel]
  · rw [h2]
    simp [alGet_alDel_self]

/-! ## C6: duplicate event delivery -/

theorem mem_markEventProcessed (l : List String) (eventId : String) :
    eventId ∈ markEventProcessed l eventId := by
  simp only [markEventProcessed]
  split
  next hlen =>
    have hle : (l ++ [eventId]).length - 500 ≤ l.length := by
      simp only [List.length_append, List.length_singleton]
      omega
    rw [List.drop_append_of_le_length hle]
    exact List.mem_append_right _ (List.mem_singleton.mpr rfl)
  next hlen =>
    exact List.mem_append_right _ (List.mem_singleton.mpr rfl)

/-- C6 counterexample: in the JavaScript bot, the `button_click` handler of
`index.js` has no de-duplication: delivering the same button-click payload
twice posts the confirmation twice and appends the Coda row twice, so the
second delivery is not a no-op. -/
theorem C6_counterexample_no_dedup_on_button_click :
    (buttonClick (buttonClick jsEmpty true "U1" "C1" "3" "t0")
        true "U1" "C1" "3" "t0").messages.length = 2 ∧
    (buttonClick (buttonClick jsEmpty true "U1" "C1" "3" "t0")
        true "U1" "C1" "3" "t0").codaRows.length = 2 ∧
    buttonClick (buttonClick jsEmpty true "U1" "C1" "3" "t0")
        true "U1" "C1" "3" "t0" ≠
      buttonClick jsEmpty true "U1" "C1" "3" "t0" := by
  decide

/-- C6 (amended): inbound events routed through the dispatcher, which keys
a de-duplication set by the platform event id, are absorbed on redelivery —
handling the same event id a second time is a no-op, so no side effect is
duplicated for those events; the JavaScript button-click handler performs no
such de-duplication. -/
theorem C6_amended_dispatcher_dedup (st : DispatchState) (eventId : String)
    (ev : InboundEvent) :
    handleEvent (handleEvent st eventId ev) eventId ev =
      handleEvent st eventId ev := by
  by_cases h : eventId ∈ st.processedEvents
  · simp [handleEvent, h]
  · have h1 : handleEvent st eventId ev =
        { bot := applyEvent st.bot ev,
          processedEvents := markEventProcessed st.processedEvents eventId } := by
      simp [handleEvent, h]
    rw [h1]
    unfold handleEvent
    rw [if_pos (mem_markEventProcessed st.processedEvents eventId)]

/-! ## C7: Durable Store failure keeps the data and acknowledges the user -/

/-- C7: when the Coda write fails during a button-click health response, the
response is retained in the in-memory fallback map, nothing reaches the
Durable Store, the user still receives a message in their channel, no later
button click ever evicts a fallback record, and in the blocker-details path
the failure is surfaced with the "issue saving" message. -/
theorem C7_store_failure_fallback (st : JsState)
    (userId channel response timestamp : String) :
    alGet (buttonClick st false userId channel response timestamp).responses
        userId = some ⟨response, timestamp⟩ ∧
    (buttonClick st false userId channel response timestamp).codaRows =
      st.codaRows ∧
    (∃ m : JsMessage,
      (buttonClick st false userId channel response timestamp).messages =
        st.messages ++ [m] ∧ m.channel = channel) ∧
    (∀ (b : Bool) (u ch r ts u' : String),
      (alGet st.responses u').isSome →
        (alGet (buttonClick st b u ch r ts).responses u').isSome) ∧
    (∀ (form : BlockerForm) (ts : String),
      (submitBlockerDetails st false userId channel form ts).messages =
        st.messages ++ [⟨channel, blockerFailText⟩] ∧
      (submitBlockerDetails st false userId channel form ts).responses =
        st.responses) := by
  refine ⟨?_, ?_, ?_, ?_, ?_⟩
  · by_cases hb : response = "blocked" <;>
      simp [buttonClick, hb, alGet_alSet_self]
  · by_cases hb : response = "blocked" <;> simp [buttonClick, hb]
  · by_cases hb : response = "blocked"
    · exact ⟨⟨channel, blockedFormText⟩, by simp [buttonClick, hb], rfl⟩
    · exact ⟨⟨channel, "Thanks for your response! You selected " ++ response ++ "."⟩,
        by simp [buttonClick, hb], rfl⟩
  · intro b u ch r ts u' hs
    by_cases hb : r = "blocked" <;> cases b <;>
      simp [buttonClick, hb, alGet_alSet_isSome, hs]
  · intro form ts
    exact ⟨by simp [submitBlockerDetails], by simp [submitBlockerDetails]⟩

/-- Witness for C7 at a concrete failed write on the empty state. -/
theorem C7_store_failure_fallback_witness :
    alGet (buttonClick jsEmpty false "U1" "C1" "4" "t0").responses "U1" =
      some ⟨"4", "t0"⟩ ∧
    (alGet (buttonClick (buttonClick jsEmpty false "U1" "C1" "4" "t0")
        true "U2" "C1" "5" "t1").responses "U1").isSome :=
  ⟨(C7_store_failure_fallback jsEmpty "U1" "C1" "4" "t0").1,
   (C7_store_failure_fallback (buttonClick jsEmpty false "U1" "C1" "4" "t0")
      "U2" "C1" "5" "t1").2.2.2.1 true "U2" "C1" "5" "t1" "U1" (by decide)⟩

/-! ## C8: blocker-intake form contents -/

/-- C8 counterexample: a `submit_blocker_details` submission with no form
values is persisted with every field defaulted to "Not provided", so the
stored urgency is not an element of the enumerated set
{low, medium, high, critical}, while the user is still told the submission
succeeded. -/
theorem C8_counterexample_default_urgency_persisted :
    (submitBlockerDetails jsEmpty true "U1" "C1" ⟨none, none, none⟩ "t0").codaRows =
      [⟨"U1", .blockerInfo "Not provided" "Not provided" "Not provided", "t0"⟩] ∧
    "Not provided" ∉ urgencyOptions ∧
    (submitBlockerDetails jsEmpty true "U1" "C1" ⟨none, none, none⟩ "t0").messages =
      [⟨"C1", blockerSuccessText⟩] := by
  decide

/-- C8 (amended): a persisted blocker-intake submission carries the entered
description and objective reference (or the literal "Not provided" default
when a field is absent or empty) and an urgency that is the selected option
value; when a selection from the offered option set was made the persisted
urgency is an element of {low, medium, high, critical}, and the user always
receives a success confirmation for a successful write and a failure
confirmation for a failed one. -/
theorem C8_amended_blocker_intake (st : JsState) (userId channel : String)
    (form : BlockerForm) (ts u : String)
    (hu : form.urgencySelected = some u) (hopt : u ∈ urgencyOptions) :
    (submitBlockerDetails st true userId channel form ts).codaRows =
      st.codaRows ++
        [⟨userId,
          .blockerInfo (jsOr form.blockerDescription "Not provided")
            (jsOr form.krName "Not provided") u, ts⟩] ∧
    u ∈ ["low", "medium", "high", "critical"] ∧
    (submitBlockerDetails st true userId channel form ts).messages =
      st.messages ++ [⟨channel, blockerSuccessText⟩] ∧
    (submitBlockerDetails st false userId channel form ts).codaRows =
      st.codaRows ∧
    (submitBlockerDetails st false userId channel form ts).messages =
      st.messages ++ [⟨channel, blockerFailText⟩] := by
  have hne : u ≠ "" := by
    have hcases : u = "low" ∨ u = "medium" ∨ u = "high" ∨ u = "critical" := by
      simpa [urgencyOptions] using hopt
    rcases hcases with h | h | h | h <;> simp [h]
  have hjs : jsOr form.urgencySelected "Not provided" = u := by
    rw [hu]
    simp [jsOr, hne]
  refine ⟨?_, ?_, ?_, ?_, ?_⟩
  · simp [submitBlockerDetails, hjs]
  · simpa [urgencyOptions] using hopt
  · simp [submitBlockerDetails]
  · simp [submitBlockerDetails]
  · simp [submitBlockerDetails]

/-- Witness for C8 (amended) at a concrete high-urgency submission. -/
theorem C8_amended_blocker_intake_witness :
    (submitBlockerDetails jsEmpty true "U1" "C1"
        ⟨some "CI is red", some "KR1", some "high"⟩ "t0").codaRows =
      [⟨"U1", .blockerInfo "CI is red" "KR1" "high", "t0"⟩] ∧
    "high" ∈ ["low", "medium", "high", "critical"] :=
  ⟨by
    have h := (C8_amended_blocker_intake jsEmpty "U1" "C1"
      ⟨some "CI is red", some "KR1", some "high"⟩ "t0" "high" rfl
      (by decide)).1
    simpa [jsEmpty, jsOr] using h,
   (C8_amended_blocker_intake jsEmpty "U1" "C1"
      ⟨some "CI is red", some "KR1", some "high"⟩ "t0" "high" rfl
      (by decide)).2.1⟩

/-! ## C9: startup configuration check -/

/-- C9: if any of the required environment variables is missing (or empty,
which JavaScript treats as falsy), the process exits with status 1 and the
descriptive message of `index.js` before the app is started, and never
reaches the running state. -/
theorem C9_missing_config_halts (e : Env)
    (h : truthy e.slackBotToken = false ∨ truthy e.slackSigningSecret = false ∨
      truthy e.slackChannelId = false) :
    startupCheck e =
      .exited 1 "Missing required environment variables. Please check your .env file." ∧
    startupCheck e ≠ .running ∧
    ∀ c m, startupCheck e = .exited c m → c ≠ 0 ∧ m ≠ "" := by
  have hc : (!truthy e.slackBotToken || !truthy e.slackSigningSecret ||
      !truthy e.slackChannelId) = true := by
    rcases h with h | h | h <;> simp [h]
  unfold startupCheck
  rw [if_pos hc]
  refine ⟨rfl, by simp, ?_⟩
  intro c m hm
  injection hm with hc' hm'
  subst hc'
  subst hm'
  exact ⟨by omega, by simp⟩

/-- Witness for C9 at an environment with the bot token unset. -/
theorem C9_missing_config_halts_witness :
    startupCheck ⟨none, some "secret", some "C1"⟩ =
      .exited 1 "Missing required environment variables. Please check your .env file." :=
  (C9_missing_config_halts ⟨none, some "secret", some "C1"⟩
    (Or.inl (by decide))).1

/-! ## C10: fallback-store invariants -/

/-- C10: the in-memory fallback map is written only when the Coda write
fails (a successful write leaves it unchanged), a button click preserves
distinctness of its user-id keys — so it always holds at most one record per
user — and a second failed submission by the same user overwrites the first
(last-write-wins per user). -/
theorem C10_fallback_map_invariants (st : JsState) (b : Bool)
    (u ch r ts r₂ ts₂ : String) (h : NodupKeys st.responses) :
    (buttonClick st true u ch r ts).responses = st.responses ∧
    NodupKeys (buttonClick st b u ch r ts).responses ∧
    (∀ k, ((buttonClick st b u ch r ts).responses.filter
      (fun p => p.1 = k)).length ≤ 1) ∧
    alGet (buttonClick (buttonClick st false u ch r ts)
        false u ch r₂ ts₂).responses u = some ⟨r₂, ts₂⟩ := by
  have hresp : ∀ (b' : Bool) (st' : JsState) (u' r' ts' : String),
      (buttonClick st' b' u' ch r' ts').responses =
        if b' then st'.responses else alSet st'.responses u' ⟨r', ts'⟩ := by
    intro b' st' u' r' ts'
    by_cases hb : r' = "blocked" <;> cases b' <;> simp [buttonClick, hb]
  have hinv : NodupKeys (buttonClick st b u ch r ts).responses := by
    rw [hresp]
    cases b
    · simpa using alSet_nodupKeys st.responses u ⟨r, ts⟩ h
    · simpa using h
  refine ⟨by simp [hresp], hinv, ?_, ?_⟩
  · intro k
    exact nodupKeys_count_le_one _ k hinv
  · rw [hresp, hresp]
    simp [alGet_alSet_self]

/-- Witness for C10 on the empty state. -/
theorem C10_fallback_map_invariants_witness :
    (buttonClick jsEmpty true "U1" "C1" "3" "t0").responses = [] ∧
    alGet (buttonClick (buttonClick jsEmpty false "U1" "C1" "3" "t0")
        false "U1" "C1" "5" "t1").responses "U1" = some ⟨"5", "t1"⟩ :=
  ⟨(C10_fallback_map_invariants jsEmpty true "U1" "C1" "3" "t0" "5" "t1"
      List.Pairwise.nil).1,
   (C10_fallback_map_invariants jsEmpty false "U1" "C1" "3" "t0" "5" "t1"
      List.Pairwise.nil).2.2.2⟩

end SlackBot
